import Mathlib

/-!
Shallow embedding of the nice-modal-solid core (src/index.tsx): the modal
store and its reducer, the modal registry, the promise callback bridge with
the imperative API (show / hide / remove / setFlags), the handler methods
resolve / reject / resolveHide, and the antd adapter functions.

Modelling conventions:
  * JS objects keyed by modal id (the store, MODAL_REGISTRY, modalCallbacks,
    hideModalCallbacks) are association lists `List (String × α)`; key
    assignment is `setEntry`, `delete` is `eraseEntry`, lookup is `getEntry`.
  * `args` records (Record<string, unknown>) are opaque to the library; they
    are modelled by a concrete finite map `ModalArgs`.
  * Promise object identities are modelled by unique Nat tokens drawn from a
    seed counter; settling a promise appends to a `settled` trace.
  * The ALREADY_MOUNTED global read by the reducer is passed as an explicit
    `mounted : String → Bool` parameter (a `List String` in `GlobalState`).
  * The rebindable global `dispatch` (which throws before a Provider installs
    it) is modelled by an `installed` flag; imperative calls return
    `Except String`, where `.error` is a synchronous throw.
-/

/-- Arbitrary argument records passed at show-time. The library never
inspects them, only stores and returns them wholesale. -/
abbrev ModalArgs := List (String × Nat)

/-- One store entry (interface NiceModalState). Every field is optional at
runtime: an entry created by the set-flags action can lack even `id`. -/
structure NiceModalState where
  id : Option String
  args : Option ModalArgs
  visible : Option Bool
  delayVisible : Option Bool
  keepMounted : Option Bool
deriving DecidableEq, Repr

/-- The modal store (interface NiceModalStore): a JS object keyed by id. -/
abbrev Store := List (String × NiceModalState)

/-- The flags payload of a set-flags action. An outer `none` means the key
is absent from the flags record; `some v` means the key is present with
value `v` (itself optional, since a JS value can be undefined). -/
structure ModalFlags where
  id : Option (Option String) := none
  args : Option (Option ModalArgs) := none
  visible : Option (Option Bool) := none
  delayVisible : Option (Option Bool) := none
  keepMounted : Option (Option Bool) := none
deriving DecidableEq, Repr

/-- Actions of the reducer. Constructors carry the names of the action
creators in the source (showModal, hideModal, removeModal, setModalFlags);
`unknownAction` stands for any action type hitting the default case. -/
inductive NiceModalAction where
  | showModal (modalId : String) (args : Option ModalArgs)
  | hideModal (modalId : String)
  | removeModal (modalId : String)
  | setModalFlags (modalId : String) (flags : ModalFlags)
  | unknownAction (modalId : String)
deriving DecidableEq, Repr

/-- The `payload.modalId` carried by every action. -/
def NiceModalAction.modalId : NiceModalAction → String
  | .showModal i _ => i
  | .hideModal i => i
  | .removeModal i => i
  | .setModalFlags i _ => i
  | .unknownAction i => i

/-- Lookup of a key in a JS-object-as-association-list. -/
def getEntry {α : Type} : List (String × α) → String → Option α
  | [], _ => none
  | (k, v) :: rest, i => if k = i then some v else getEntry rest i

/-- Key assignment `obj[k] = v`: replace the binding if the key is present,
append it otherwise. -/
def setEntry {α : Type} : List (String × α) → String → α → List (String × α)
  | [], i, v => [(i, v)]
  | (k, w) :: rest, i, v => if k = i then (i, v) :: rest else (k, w) :: setEntry rest i v

/-- Key deletion `delete obj[k]`. -/
def eraseEntry {α : Type} : List (String × α) → String → List (String × α)
  | [], _ => []
  | (k, w) :: rest, i => if k = i then eraseEntry rest i else (k, w) :: eraseEntry rest i

/-- Number of bindings for a key (1 or 0 for a genuine JS object). -/
def countKey {α : Type} : List (String × α) → String → Nat
  | [], _ => 0
  | (k, _) :: rest, i => (if k = i then 1 else 0) + countKey rest i

/-- Shallow merge `\x7b...base, ...flags\x7d` of a flags record into an entry. -/
def applyFlags (base : NiceModalState) (f : ModalFlags) : NiceModalState where
  id := f.id.getD base.id
  args := f.args.getD base.args
  visible := f.visible.getD base.visible
  delayVisible := f.delayVisible.getD base.delayVisible
  keepMounted := f.keepMounted.getD base.keepMounted

/-- The entry all of whose fields are absent: the base of a set-flags merge
when the store has no entry for the id. -/
def emptyEntry : NiceModalState where
  id := none
  args := none
  visible := none
  delayVisible := none
  keepMounted := none

/-- The pure reducer of src/index.tsx. `mounted` is the ALREADY_MOUNTED
global it reads. Each case mirrors the corresponding switch case:
show spreads the old entry and overrides id, args, visible, delayVisible;
hide returns the state unchanged when the id is absent, else sets
visible to false; remove deletes the entry; set-flags shallow-merges the
flags over the old entry (or over the empty object when absent); the
default case returns the state. -/
def reducer (mounted : String → Bool) (state : Store) (action : NiceModalAction) : Store :=
  match action with
  | .showModal modalId args =>
      setEntry state modalId
        { id := some modalId
          args := args
          visible := some (mounted modalId)
          delayVisible := some (!(mounted modalId))
          keepMounted := (getEntry state modalId).bind NiceModalState.keepMounted }
  | .hideModal modalId =>
      match getEntry state modalId with
      | none => state
      | some e => setEntry state modalId { e with visible := some false }
  | .removeModal modalId => eraseEntry state modalId
  | .setModalFlags modalId flags =>
      setEntry state modalId (applyFlags ((getEntry state modalId).getD emptyEntry) flags)
  | .unknownAction _ => state

section ListLemmas

variable {α : Type}

theorem getEntry_setEntry_self (l : List (String × α)) (i : String) (v : α) :
    getEntry (setEntry l i v) i = some v := by
  induction l with
  | nil => simp [setEntry, getEntry]
  | cons p rest ih =>
    obtain ⟨k, w⟩ := p
    by_cases h : k = i
    · simp [setEntry, getEntry, h]
    · simp [setEntry, getEntry, h, ih]

theorem getEntry_setEntry_ne (l : List (String × α)) (i j : String) (v : α)
    (h : j ≠ i) : getEntry (setEntry l i v) j = getEntry l j := by
  induction l with
  | nil => simp [setEntry, getEntry, Ne.symm h]
  | cons p rest ih =>
    obtain ⟨k, w⟩ := p
    by_cases hk : k = i
    · subst hk
      simp [setEntry, getEntry, Ne.symm h]
    · by_cases hkj : k = j
      · simp [setEntry, getEntry, hk, hkj, h]
      · simp [setEntry, getEntry, hk, hkj, ih]

theorem getEntry_eraseEntry_self (l : List (String × α)) (i : String) :
    getEntry (eraseEntry l i) i = none := by
  induction l with
  | nil => simp [eraseEntry, getEntry]
  | cons p rest ih =>
    obtain ⟨k, w⟩ := p
    by_cases h : k = i
    · simp [eraseEntry, h, ih]
    · simp [eraseEntry, getEntry, h, ih]

theorem getEntry_eraseEntry_ne (l : List (String × α)) (i j : String)
    (h : j ≠ i) : getEntry (eraseEntry l i) j = getEntry l j := by
  induction l with
  | nil => simp [eraseEntry]
  | cons p rest ih =>
    obtain ⟨k, w⟩ := p
    by_cases hk : k = i
    · subst hk
      simp [eraseEntry, getEntry, Ne.symm h, ih]
    · by_cases hkj : k = j
      · simp [eraseEntry, getEntry, hk, hkj, h]
      · simp [eraseEntry, getEntry, hk, hkj, ih]

theorem eraseEntry_of_getEntry_none (l : List (String × α)) (i : String)
    (h : getEntry l i = none) : eraseEntry l i = l := by
  induction l with
  | nil => simp [eraseEntry]
  | cons p rest ih =>
    obtain ⟨k, w⟩ := p
    by_cases hk : k = i
    · simp [getEntry, hk] at h
    · simp [getEntry, hk] at h
      simp [eraseEntry, hk, ih h]

theorem eraseEntry_idem (l : List (String × α)) (i : String) :
    eraseEntry (eraseEntry l i) i = eraseEntry l i :=
  eraseEntry_of_getEntry_none _ _ (getEntry_eraseEntry_self l i)

theorem countKey_of_getEntry_none (l : List (String × α)) (i : String)
    (h : getEntry l i = none) : countKey l i = 0 := by
  induction l with
  | nil => simp [countKey]
  | cons p rest ih =>
    obtain ⟨k, w⟩ := p
    by_cases hk : k = i
    · simp [getEntry, hk] at h
    · simp [getEntry, hk] at h
      simp [countKey, hk, ih h]

theorem countKey_setEntry_of_none (l : List (String × α)) (i : String) (v : α)
    (h : getEntry l i = none) : countKey (setEntry l i v) i = 1 := by
  induction l with
  | nil => simp [setEntry, countKey]
  | cons p rest ih =>
    obtain ⟨k, w⟩ := p
    by_cases hk : k = i
    · simp [getEntry, hk] at h
    · simp [getEntry, hk] at h
      simp [setEntry, countKey, hk, ih h]

theorem one_le_countKey_of_getEntry_some (l : List (String × α)) (i : String) (v : α)
    (h : getEntry l i = some v) : 1 ≤ countKey l i := by
  induction l with
  | nil => simp [getEntry] at h
  | cons p rest ih =>
    obtain ⟨k, w⟩ := p
    by_cases hk : k = i
    · simp [countKey, hk]
    · simp [getEntry, hk] at h
      simpa [countKey, hk] using ih h

end ListLemmas

/-! ### Registry (MODAL_REGISTRY, register, getModal) -/

/-- A registry entry: component reference (modelled by its identity as a
Nat) plus the registered default props. -/
structure RegistryEntry where
  comp : Nat
  props : Option ModalArgs
deriving DecidableEq, Repr

/-- MODAL_REGISTRY: a JS object keyed by modal id. -/
abbrev Registry := List (String × RegistryEntry)

/-- The register function of src/index.tsx: insert when the id is unknown;
otherwise assign only the props field, keeping the first component. -/
def register (i : String) (comp : Nat) (props : Option ModalArgs) (reg : Registry) : Registry :=
  match getEntry reg i with
  | none => setEntry reg i { comp := comp, props := props }
  | some e => setEntry reg i { comp := e.comp, props := props }

/-- getModal: the optional-chained lookup MODAL_REGISTRY[modalId]?.comp. -/
def getModal (reg : Registry) (i : String) : Option Nat :=
  (getEntry reg i).map RegistryEntry.comp

/-! ### Callback bridge and imperative API -/

/-- The process-wide mutable state touched by the imperative API: the
provider store, the two callback tables (promises as Nat tokens), the
token seed, ALREADY_MOUNTED, whether a Provider has installed dispatch,
and a trace of promise settlements (token, true for resolve / false for
reject, payload). -/
structure GlobalState where
  modals : Store
  modalCallbacks : List (String × Nat)
  hideModalCallbacks : List (String × Nat)
  promiseSeed : Nat
  mounted : List String
  installed : Bool
  settled : List (Nat × Bool × Option ModalArgs)
deriving DecidableEq, Repr

/-- The exact message of the sentinel dispatch that throws before a
Provider is mounted. -/
def noDispatchMessage : String :=
  "No dispatch method detected, did you embed your app with NiceModal.Provider?"

/-- The dispatch function reference: before a Provider installs it, it
throws; afterwards it applies the reducer to the provider store. -/
def dispatchA (a : NiceModalAction) (s : GlobalState) : Except String GlobalState :=
  if s.installed then
    .ok { s with modals := reducer (fun i => s.mounted.contains i) s.modals a }
  else
    .error noDispatchMessage

/-- The imperative show function (export function show) for a string id:
dispatch the show action; if no show-callback is pending for the id,
create one with a fresh promise; return the pending promise. -/
def showM (modalId : String) (args : Option ModalArgs) (s : GlobalState) :
    Except String (Nat × GlobalState) :=
  match dispatchA (.showModal modalId args) s with
  | .error e => .error e
  | .ok s1 =>
    match getEntry s1.modalCallbacks modalId with
    | some p => .ok (p, s1)
    | none =>
      .ok (s1.promiseSeed,
        { s1 with
          modalCallbacks := setEntry s1.modalCallbacks modalId s1.promiseSeed
          promiseSeed := s1.promiseSeed + 1 })

/-- The imperative hide function: dispatch the hide action; discard the
pending show-callback without settling it; if no hide-callback is pending,
create one; return the pending hide promise. -/
def hideM (modalId : String) (s : GlobalState) : Except String (Nat × GlobalState) :=
  match dispatchA (.hideModal modalId) s with
  | .error e => .error e
  | .ok s1 =>
    let s2 := { s1 with modalCallbacks := eraseEntry s1.modalCallbacks modalId }
    match getEntry s2.hideModalCallbacks modalId with
    | some p => .ok (p, s2)
    | none =>
      .ok (s2.promiseSeed,
        { s2 with
          hideModalCallbacks := setEntry s2.hideModalCallbacks modalId s2.promiseSeed
          promiseSeed := s2.promiseSeed + 1 })

/-- The imperative remove function: dispatch the remove action and discard
both pending callbacks for the id without settling them. -/
def removeM (modalId : String) (s : GlobalState) : Except String GlobalState :=
  match dispatchA (.removeModal modalId) s with
  | .error e => .error e
  | .ok s1 =>
    .ok { s1 with
          modalCallbacks := eraseEntry s1.modalCallbacks modalId
          hideModalCallbacks := eraseEntry s1.hideModalCallbacks modalId }

/-- The imperative setFlags function: dispatch the set-flags action. -/
def setFlagsM (modalId : String) (flags : ModalFlags) (s : GlobalState) :
    Except String GlobalState :=
  dispatchA (.setModalFlags modalId flags) s

/-- The resolve method of the useModal handler: settle the pending
show-callback with the payload if one exists (optional chaining makes the
call safe), then delete the entry. -/
def useModalResolve (mid : String) (payload : Option ModalArgs) (s : GlobalState) : GlobalState :=
  { s with
    settled :=
      match getEntry s.modalCallbacks mid with
      | some p => s.settled ++ [(p, true, payload)]
      | none => s.settled
    modalCallbacks := eraseEntry s.modalCallbacks mid }

/-- The reject method of the useModal handler, analogous to resolve. -/
def useModalReject (mid : String) (payload : Option ModalArgs) (s : GlobalState) : GlobalState :=
  { s with
    settled :=
      match getEntry s.modalCallbacks mid with
      | some p => s.settled ++ [(p, false, payload)]
      | none => s.settled
    modalCallbacks := eraseEntry s.modalCallbacks mid }

/-- The resolveHide method of the useModal handler: settle and delete the
pending hide-callback. -/
def useModalResolveHide (mid : String) (payload : Option ModalArgs) (s : GlobalState) : GlobalState :=
  { s with
    settled :=
      match getEntry s.hideModalCallbacks mid with
      | some p => s.settled ++ [(p, true, payload)]
      | none => s.settled
    hideModalCallbacks := eraseEntry s.hideModalCallbacks mid }

/-! ### Adapter functions (antdModal, antdModalV5) -/

/-- The subset of the NiceModalHandler interface that the adapter
functions consume: the visible and keepMounted projections and the three
bound methods, modelled as transformers of an ambient effect state. -/
structure NiceModalHandlerEff (σ : Type) where
  visible : Bool
  keepMounted : Bool
  hide : σ → σ
  resolveHide : σ → σ
  remove : σ → σ

/-- The prop shape returned by antdModal. -/
structure AntdModalProps (σ : Type) where
  visible : Bool
  onOk : σ → σ
  onCancel : σ → σ
  afterClose : σ → σ

/-- The prop shape returned by antdModalV5; the source field is named
open, which Lean reserves, hence openProp. -/
structure AntdModalV5Props (σ : Type) where
  openProp : Bool
  onOk : σ → σ
  onCancel : σ → σ
  afterClose : σ → σ

/-- The antdModal adapter: visible mirrors the handler, ok and cancel call
hide, afterClose first calls resolveHide, then remove unless keepMounted. -/
def antdModal {σ : Type} (modal : NiceModalHandlerEff σ) : AntdModalProps σ where
  visible := modal.visible
  onOk := fun s => modal.hide s
  onCancel := fun s => modal.hide s
  afterClose := fun s =>
    let s1 := modal.resolveHide s
    if modal.keepMounted then s1 else modal.remove s1

/-- The antdModalV5 adapter: reuses the antdModal triggers and renames
visible to open. -/
def antdModalV5 {σ : Type} (modal : NiceModalHandlerEff σ) : AntdModalV5Props σ :=
  let a := antdModal modal
  { openProp := modal.visible
    onOk := a.onOk
    onCancel := a.onCancel
    afterClose := a.afterClose }

/-- Abstract handler method calls, for observing adapter behaviour as a
trace. -/
inductive HCall where
  | hide
  | resolveHide
  | remove
deriving DecidableEq, Repr

/-- A handler whose methods record their invocations in a trace. -/
def traceHandler (v km : Bool) : NiceModalHandlerEff (List HCall) where
  visible := v
  keepMounted := km
  hide := fun t => t ++ [HCall.hide]
  resolveHide := fun t => t ++ [HCall.resolveHide]
  remove := fun t => t ++ [HCall.remove]

/-! ### Action sequences -/

/-- Left-to-right application of a dispatched action sequence. -/
def applyActions (mounted : String → Bool) (s : Store) : List NiceModalAction → Store
  | [] => s
  | a :: rest => applyActions mounted (reducer mounted s a) rest

/-- Is this action a show action for the given id. -/
def isShowFor (i : String) : NiceModalAction → Bool
  | .showModal j _ => decide (j = i)
  | _ => false

/-- Is this action a set-flags action for the given id. -/
def isSetFlagsFor (i : String) : NiceModalAction → Bool
  | .setModalFlags j _ => decide (j = i)
  | _ => false

/-- Is this action a remove action for the given id. -/
def isRemoveFor (i : String) : NiceModalAction → Bool
  | .removeModal j => decide (j = i)
  | _ => false

/-- Does this action write a store entry for the given id (show and
set-flags are the entry-creating actions of the reducer). -/
def entryWriter (i : String) (a : NiceModalAction) : Bool :=
  isShowFor i a || isSetFlagsFor i a

/-- Tracks presence of an entry for an id along an action sequence: an
entry-writing action sets it, a remove clears it, every other action
leaves it. -/
def presentTrack (i : String) (acts : List NiceModalAction) (b : Bool) : Bool :=
  acts.foldl (fun acc a => if entryWriter i a then true else if isRemoveFor i a then false else acc) b

/-! ### Concrete sample values used by witnesses -/

/-- A sample store entry. -/
def sampleEntry : NiceModalState where
  id := some "m1"
  args := some [("x", 1)]
  visible := some true
  delayVisible := some false
  keepMounted := some true

/-- A global state in which a Provider has installed dispatch. -/
def sampleInstalled : GlobalState where
  modals := []
  modalCallbacks := []
  hideModalCallbacks := []
  promiseSeed := 0
  mounted := []
  installed := true
  settled := []

/-- A global state before any Provider has installed dispatch. -/
def sampleUninstalled : GlobalState where
  modals := []
  modalCallbacks := []
  hideModalCallbacks := []
  promiseSeed := 0
  mounted := []
  installed := false
  settled := []

/-! ### Claim theorems -/

/-- C1: reducing show(id, args) upserts the entry for id: afterwards
visible equals membership of id in the AlreadyMounted set, delayVisible
equals its negation, and args equals exactly the args of this show action,
replacing any previous args wholesale. -/
theorem show_upserts_entry (m : String → Bool) (state : Store) (i : String)
    (args : Option ModalArgs) :
    getEntry (reducer m state (.showModal i args)) i =
      some { id := some i
             args := args
             visible := some (m i)
             delayVisible := some (!(m i))
             keepMounted := (getEntry state i).bind NiceModalState.keepMounted } := by
  simp [reducer, getEntry_setEntry_self]

/-- C5: reducing hide(id) on a state without an entry for id returns the
state unchanged; on a state with an entry it sets visible to false and
keeps every other field; and the imperative hide call never throws once a
dispatcher is installed, whatever the store contains. -/
theorem hide_noop_and_total (m : String → Bool) (state : Store) (i : String)
    (s : GlobalState) :
    (getEntry state i = none → reducer m state (.hideModal i) = state) ∧
    (∀ e, getEntry state i = some e →
      getEntry (reducer m state (.hideModal i)) i = some { e with visible := some false }) ∧
    (s.installed = true → ∃ p s2, hideM i s = .ok (p, s2)) := by
  refine ⟨?_, ?_, ?_⟩
  · intro h
    simp [reducer, h]
  · intro e h
    simp [reducer, h, getEntry_setEntry_self]
  · intro h
    cases hg : getEntry s.hideModalCallbacks i <;>
      simp [hideM, dispatchA, h, hg]

/-- Witness for C5 at concrete inputs. -/
theorem hide_noop_and_total_witness :
    reducer (fun _ => false) [] (.hideModal "a") = [] ∧
    getEntry (reducer (fun _ => false) [("a", sampleEntry)] (.hideModal "a")) "a" =
      some { sampleEntry with visible := some false } ∧
    ∃ p s2, hideM "a" sampleInstalled = .ok (p, s2) :=
  ⟨(hide_noop_and_total (fun _ => false) [] "a" sampleInstalled).1 (by decide),
   (hide_noop_and_total (fun _ => false) [("a", sampleEntry)] "a" sampleInstalled).2.1
     sampleEntry (by decide),
   (hide_noop_and_total (fun _ => false) [] "a" sampleInstalled).2.2 (by decide)⟩

/-- C8: reducing remove(id) is idempotent: a second remove yields a state
equal to the first; the entry for id is gone after a remove; and removing
an absent id changes nothing. -/
theorem remove_idempotent (m : String → Bool) (state : Store) (i : String) :
    reducer m (reducer m state (.removeModal i)) (.removeModal i) =
      reducer m state (.removeModal i) ∧
    getEntry (reducer m state (.removeModal i)) i = none ∧
    (getEntry state i = none → reducer m state (.removeModal i) = state) := by
  refine ⟨?_, ?_, ?_⟩
  · simp [reducer, eraseEntry_idem]
  · simp [reducer, getEntry_eraseEntry_self]
  · intro h
    simp [reducer, eraseEntry_of_getEntry_none _ _ h]

/-- Witness for C8 at concrete inputs. -/
theorem remove_idempotent_witness :
    reducer (fun _ => false) (reducer (fun _ => false) [("a", sampleEntry)] (.removeModal "a"))
        (.removeModal "a") =
      reducer (fun _ => false) [("a", sampleEntry)] (.removeModal "a") ∧
    getEntry (reducer (fun _ => false) [("a", sampleEntry)] (.removeModal "a")) "a" = none ∧
    reducer (fun _ => false) [("b", sampleEntry)] (.removeModal "a") = [("b", sampleEntry)] :=
  ⟨(remove_idempotent (fun _ => false) [("a", sampleEntry)] "a").1,
   (remove_idempotent (fun _ => false) [("a", sampleEntry)] "a").2.1,
   (remove_idempotent (fun _ => false) [("b", sampleEntry)] "a").2.2 (by decide)⟩

/-- C10: reducing show preserves the keepMounted field of an existing
entry, and every reducer action leaves the entries of every id other than
the id in its payload unchanged. -/
theorem show_keepMounted_and_frame (m : String → Bool) (state : Store) (i : String)
    (args : Option ModalArgs) :
    (∃ e, getEntry (reducer m state (.showModal i args)) i = some e ∧
        e.keepMounted = (getEntry state i).bind NiceModalState.keepMounted) ∧
    (∀ (a : NiceModalAction) (k : String), k ≠ a.modalId →
        getEntry (reducer m state a) k = getEntry state k) := by
  constructor
  · refine ⟨{ id := some i
              args := args
              visible := some (m i)
              delayVisible := some (!(m i))
              keepMounted := (getEntry state i).bind NiceModalState.keepMounted }, ?_, rfl⟩
    simp [reducer, getEntry_setEntry_self]
  · intro a k hk
    cases a with
    | showModal j args2 =>
      simp only [NiceModalAction.modalId] at hk
      simp [reducer, getEntry_setEntry_ne _ _ _ _ hk]
    | hideModal j =>
      simp only [NiceModalAction.modalId] at hk
      cases hg : getEntry state j <;>
        simp [reducer, hg, getEntry_setEntry_ne _ _ _ _ hk]
    | removeModal j =>
      simp only [NiceModalAction.modalId] at hk
      simp [reducer, getEntry_eraseEntry_ne _ _ _ hk]
    | setModalFlags j flags =>
      simp only [NiceModalAction.modalId] at hk
      simp [reducer, getEntry_setEntry_ne _ _ _ _ hk]
    | unknownAction j =>
      simp [reducer]

/-- Witness for C10 at concrete inputs. -/
theorem show_keepMounted_and_frame_witness :
    (∃ e, getEntry (reducer (fun _ => false) [("a", sampleEntry)]
          (.showModal "a" none)) "a" = some e ∧
        e.keepMounted = (getEntry [("a", sampleEntry)] "a").bind NiceModalState.keepMounted) ∧
    getEntry (reducer (fun _ => false) [("b", sampleEntry)] (.showModal "a" none)) "b" =
      getEntry [("b", sampleEntry)] "b" :=
  ⟨(show_keepMounted_and_frame (fun _ => false) [("a", sampleEntry)] "a" none).1,
   (show_keepMounted_and_frame (fun _ => false) [("b", sampleEntry)] "a" none).2
     (.showModal "a" none) "b" (by decide)⟩

theorem register_of_none (reg : Registry) (i : String) (c : Nat) (p : Option ModalArgs)
    (h : getEntry reg i = none) :
    register i c p reg = setEntry reg i { comp := c, props := p } := by
  unfold register
  rw [h]

theorem register_of_some (reg : Registry) (i : String) (c : Nat) (p : Option ModalArgs)
    (e : RegistryEntry) (h : getEntry reg i = some e) :
    register i c p reg = setEntry reg i { comp := e.comp, props := p } := by
  unfold register
  rw [h]

/-- C4: registering an id twice keeps the component of the first
registration and replaces only the default props with those of the second
call; more generally a register call on a known id never swaps the stored
component. -/
theorem register_keeps_first_component (reg : Registry) (i : String) (cA cB : Nat)
    (pA pB : Option ModalArgs) :
    (getEntry reg i = none →
      getModal (register i cB pB (register i cA pA reg)) i = some cA ∧
      getEntry (register i cB pB (register i cA pA reg)) i =
        some { comp := cA, props := pB }) ∧
    (∀ e, getEntry reg i = some e →
      getModal (register i cB pB reg) i = some e.comp) := by
  constructor
  · intro h
    have h1 : getEntry (register i cA pA reg) i = some { comp := cA, props := pA } := by
      rw [register_of_none reg i cA pA h]
      exact getEntry_setEntry_self _ _ _
    have h2 := register_of_some (register i cA pA reg) i cB pB _ h1
    constructor
    · simp [getModal, h2, getEntry_setEntry_self]
    · simp [h2, getEntry_setEntry_self]
  · intro e h
    simp [getModal, register_of_some reg i cB pB e h, getEntry_setEntry_self]

/-- Witness for C4 at concrete inputs. -/
theorem register_keeps_first_component_witness :
    getModal (register "m1" 2 (some [("x", 1)]) (register "m1" 1 none [])) "m1" = some 1 ∧
    getEntry (register "m1" 2 (some [("x", 1)]) (register "m1" 1 none [])) "m1" =
      some { comp := 1, props := some [("x", 1)] } ∧
    getModal (register "m1" 2 (some [("x", 1)]) [("m1", { comp := 7, props := none })]) "m1" =
      some 7 :=
  ⟨((register_keeps_first_component [] "m1" 1 2 none (some [("x", 1)])).1 (by decide)).1,
   ((register_keeps_first_component [] "m1" 1 2 none (some [("x", 1)])).1 (by decide)).2,
   (register_keeps_first_component [("m1", { comp := 7, props := none })] "m1" 1 2 none
      (some [("x", 1)])).2 { comp := 7, props := none } (by decide)⟩

/-- C7: every imperative API call made before a Provider installs the
dispatcher fails synchronously (an Except error, not a settled promise)
with the no-dispatch message, and that message names NiceModal.Provider
as the fix. -/
theorem imperative_requires_dispatch (s : GlobalState) (i : String)
    (args : Option ModalArgs) (flags : ModalFlags) (h : s.installed = false) :
    showM i args s = .error noDispatchMessage ∧
    hideM i s = .error noDispatchMessage ∧
    removeM i s = .error noDispatchMessage ∧
    setFlagsM i flags s = .error noDispatchMessage ∧
    ∃ pre post, noDispatchMessage = pre ++ "NiceModal.Provider" ++ post := by
  refine ⟨?_, ?_, ?_, ?_,
    ⟨"No dispatch method detected, did you embed your app with ", "?", by decide⟩⟩
  · simp [showM, dispatchA, h]
  · simp [hideM, dispatchA, h]
  · simp [removeM, dispatchA, h]
  · simp [setFlagsM, dispatchA, h]

/-- Witness for C7 at a concrete uninstalled state. -/
theorem imperative_requires_dispatch_witness :
    showM "m1" none sampleUninstalled = .error noDispatchMessage ∧
    hideM "m1" sampleUninstalled = .error noDispatchMessage ∧
    removeM "m1" sampleUninstalled = .error noDispatchMessage ∧
    setFlagsM "m1" {} sampleUninstalled = .error noDispatchMessage ∧
    ∃ pre post, noDispatchMessage = pre ++ "NiceModal.Provider" ++ post :=
  imperative_requires_dispatch sampleUninstalled "m1" none {} (by decide)

/-- C9: the antdModalV5 adapter exposes open equal to the handler visible
flag, and its afterClose trigger calls resolveHide exactly once and then
remove exactly once unless keepMounted is set, in which case remove is not
called. -/
theorem antdModalV5_adapter_spec (v km : Bool) (t : List HCall) :
    (antdModalV5 (traceHandler v km)).openProp = v ∧
    (antdModalV5 (traceHandler v km)).afterClose t =
      t ++ HCall.resolveHide :: (if km then [] else [HCall.remove]) ∧
    ((antdModalV5 (traceHandler v km)).afterClose t).count HCall.resolveHide =
      t.count HCall.resolveHide + 1 ∧
    ((antdModalV5 (traceHandler v km)).afterClose t).count HCall.remove =
      t.count HCall.remove + (if km then 0 else 1) := by
  cases km <;>
    simp [antdModalV5, antdModal, traceHandler, List.count_append, List.count_cons]

/-- C6: the handler resolve and reject methods settle the pending
show-callback for the id when one exists and delete its entry; a second
resolve or reject for the same id is a no-op on the state, and when no
callback was ever pending the call changes nothing; the settlement trace
grows by exactly one event when a callback was pending and by none
otherwise. -/
theorem resolve_reject_settle_once (s : GlobalState) (mid : String)
    (p q : Option ModalArgs) :
    getEntry (useModalResolve mid p s).modalCallbacks mid = none ∧
    useModalResolve mid q (useModalResolve mid p s) = useModalResolve mid p s ∧
    useModalReject mid q (useModalResolve mid p s) = useModalResolve mid p s ∧
    getEntry (useModalReject mid p s).modalCallbacks mid = none ∧
    useModalReject mid q (useModalReject mid p s) = useModalReject mid p s ∧
    useModalResolve mid q (useModalReject mid p s) = useModalReject mid p s ∧
    (useModalResolve mid p s).settled.length =
      s.settled.length +
        (match getEntry s.modalCallbacks mid with | some _ => 1 | none => 0) ∧
    (getEntry s.modalCallbacks mid = none → useModalResolve mid p s = s) := by
  refine ⟨?_, ?_, ?_, ?_, ?_, ?_, ?_, ?_⟩
  · simp [useModalResolve, getEntry_eraseEntry_self]
  · simp [useModalResolve, getEntry_eraseEntry_self, eraseEntry_idem]
  · simp [useModalResolve, useModalReject, getEntry_eraseEntry_self, eraseEntry_idem]
  · simp [useModalReject, getEntry_eraseEntry_self]
  · simp [useModalReject, getEntry_eraseEntry_self, eraseEntry_idem]
  · simp [useModalResolve, useModalReject, getEntry_eraseEntry_self, eraseEntry_idem]
  · cases hg : getEntry s.modalCallbacks mid <;> simp [useModalResolve, hg]
  · intro h
    simp [useModalResolve, h, eraseEntry_of_getEntry_none _ _ h]

/-- Witness for C6 at concrete inputs. -/
theorem resolve_reject_settle_once_witness :
    getEntry (useModalResolve "m1" none
        { sampleInstalled with modalCallbacks := [("m1", 5)] }).modalCallbacks "m1" = none ∧
    useModalResolve "m1" none sampleInstalled = sampleInstalled :=
  ⟨(resolve_reject_settle_once { sampleInstalled with modalCallbacks := [("m1", 5)] }
      "m1" none none).1,
   (resolve_reject_settle_once sampleInstalled "m1" none none).2.2.2.2.2.2.2 (by decide)⟩

theorem showM_of_installed (s : GlobalState) (i : String) (args : Option ModalArgs)
    (h : s.installed = true) :
    showM i args s =
      match getEntry s.modalCallbacks i with
      | some p =>
          .ok (p, { s with
            modals := reducer (fun j => s.mounted.contains j) s.modals (.showModal i args) })
      | none =>
          .ok (s.promiseSeed, { s with
            modals := reducer (fun j => s.mounted.contains j) s.modals (.showModal i args)
            modalCallbacks := setEntry s.modalCallbacks i s.promiseSeed
            promiseSeed := s.promiseSeed + 1 }) := by
  cases hg : getEntry s.modalCallbacks i <;> simp [showM, dispatchA, h, hg]

/-- C2: a second show call for an id whose show promise has not been
settled or discarded returns the identical promise token and creates no
second callback entry; show leaves the hide-callback table untouched, and
starting from a state with at most one pending entry for the id it leaves
exactly one. -/
theorem showM_reuses_promise (s : GlobalState) (i : String)
    (args args2 : Option ModalArgs) (h : s.installed = true) :
    ∃ p s1 s2,
      showM i args s = .ok (p, s1) ∧
      showM i args2 s1 = .ok (p, s2) ∧
      s2.modalCallbacks = s1.modalCallbacks ∧
      s1.hideModalCallbacks = s.hideModalCallbacks ∧
      (countKey s.modalCallbacks i ≤ 1 → countKey s1.modalCallbacks i = 1) := by
  rw [showM_of_installed s i args h]
  cases hg : getEntry s.modalCallbacks i with
  | some p =>
    refine ⟨p,
        { s with
            modals := reducer (fun j => s.mounted.contains j) s.modals (.showModal i args) },
        { s with
            modals := reducer (fun j => s.mounted.contains j)
              (reducer (fun j => s.mounted.contains j) s.modals (.showModal i args))
              (.showModal i args2) },
        rfl, ?_, rfl, rfl, ?_⟩
    · simp [showM, dispatchA, h, hg]
    · intro hle
      exact Nat.le_antisymm hle (one_le_countKey_of_getEntry_some _ _ _ hg)
  | none =>
    refine ⟨s.promiseSeed,
        { s with
            modals := reducer (fun j => s.mounted.contains j) s.modals (.showModal i args)
            modalCallbacks := setEntry s.modalCallbacks i s.promiseSeed
            promiseSeed := s.promiseSeed + 1 },
        { s with
            modals := reducer (fun j => s.mounted.contains j)
              (reducer (fun j => s.mounted.contains j) s.modals (.showModal i args))
              (.showModal i args2)
            modalCallbacks := setEntry s.modalCallbacks i s.promiseSeed
            promiseSeed := s.promiseSeed + 1 },
        rfl, ?_, rfl, rfl, ?_⟩
    · simp [showM, dispatchA, h, getEntry_setEntry_self]
    · intro _
      exact countKey_setEntry_of_none _ _ _ hg

/-- Witness for C2 at a concrete installed state. -/
theorem showM_reuses_promise_witness :
    ∃ p s1 s2,
      showM "m1" none sampleInstalled = .ok (p, s1) ∧
      showM "m1" (some [("x", 1)]) s1 = .ok (p, s2) ∧
      s2.modalCallbacks = s1.modalCallbacks ∧
      s1.hideModalCallbacks = sampleInstalled.hideModalCallbacks ∧
      (countKey sampleInstalled.modalCallbacks "m1" ≤ 1 →
        countKey s1.modalCallbacks "m1" = 1) :=
  showM_reuses_promise sampleInstalled "m1" none (some [("x", 1)]) (by decide)

theorem presence_step (m : String → Bool) (s : Store) (a : NiceModalAction) (i : String) :
    (getEntry (reducer m s a) i).isSome =
      if entryWriter i a then true
      else if isRemoveFor i a then false
      else (getEntry s i).isSome := by
  cases a with
  | showModal j args =>
    by_cases hj : j = i
    · subst hj
      simp [reducer, entryWriter, isShowFor, getEntry_setEntry_self]
    · simp [reducer, entryWriter, isShowFor, isSetFlagsFor, isRemoveFor, hj,
        getEntry_setEntry_ne s j i _ (Ne.symm hj)]
  | hideModal j =>
    cases hg : getEntry s j with
    | none => simp [reducer, hg, entryWriter, isShowFor, isSetFlagsFor, isRemoveFor]
    | some e =>
      by_cases hj : j = i
      · subst hj
        simp [reducer, hg, entryWriter, isShowFor, isSetFlagsFor, isRemoveFor,
          getEntry_setEntry_self]
      · simp [reducer, hg, entryWriter, isShowFor, isSetFlagsFor, isRemoveFor,
          getEntry_setEntry_ne s j i _ (Ne.symm hj)]
  | removeModal j =>
    by_cases hj : j = i
    · subst hj
      simp [reducer, entryWriter, isShowFor, isSetFlagsFor, isRemoveFor,
        getEntry_eraseEntry_self]
    · simp [reducer, entryWriter, isShowFor, isSetFlagsFor, isRemoveFor, hj,
        getEntry_eraseEntry_ne s j i (Ne.symm hj)]
  | setModalFlags j flags =>
    by_cases hj : j = i
    · subst hj
      simp [reducer, entryWriter, isShowFor, isSetFlagsFor, getEntry_setEntry_self]
    · simp [reducer, entryWriter, isShowFor, isSetFlagsFor, isRemoveFor, hj,
        getEntry_setEntry_ne s j i _ (Ne.symm hj)]
  | unknownAction j =>
    simp [reducer, entryWriter, isShowFor, isSetFlagsFor, isRemoveFor]

theorem presentTrack_applyActions (m : String → Bool) (acts : List NiceModalAction) :
    ∀ (s : Store) (i : String),
      (getEntry (applyActions m s acts) i).isSome =
        presentTrack i acts ((getEntry s i).isSome) := by
  induction acts with
  | nil =>
    intro s i
    simp [applyActions, presentTrack]
  | cons a rest ih =>
    intro s i
    simp only [applyActions, presentTrack, List.foldl_cons]
    rw [ih (reducer m s a) i]
    simp only [presentTrack]
    rw [presence_step m s a i]

/-- A show or set-flags action for the id occurs in the sequence and no
remove action for the id comes after it. -/
def activeWitness (i : String) (acts : List NiceModalAction) : Prop :=
  ∃ pre a post, acts = pre ++ a :: post ∧ entryWriter i a = true ∧
    ∀ b ∈ post, isRemoveFor i b = false

theorem activeWitness_snoc (i : String) (as : List NiceModalAction) (a : NiceModalAction) :
    activeWitness i (as ++ [a]) ↔
      (entryWriter i a = true ∨ (isRemoveFor i a = false ∧ activeWitness i as)) := by
  constructor
  · rintro ⟨pre, x, post, heq, hC, hR⟩
    rcases List.eq_nil_or_concat' post with rfl | ⟨post0, b, rfl⟩
    · obtain ⟨h1, h2⟩ := List.append_inj' heq rfl
      simp only [List.cons.injEq, and_true] at h2
      subst h2
      exact Or.inl hC
    · have heq2 : as ++ [a] = (pre ++ x :: post0) ++ [b] := by
        simpa [List.append_assoc] using heq
      obtain ⟨h1, h2⟩ := List.append_inj' heq2 rfl
      simp only [List.cons.injEq, and_true] at h2
      refine Or.inr ⟨?_, pre, x, post0, h1, hC, ?_⟩
      · subst h2
        exact hR a (by simp)
      · intro c hc
        exact hR c (by simp [hc])
  · rintro (hC | ⟨hRa, pre, x, post, rfl, hC, hR⟩)
    · exact ⟨as, a, [], by simp, hC, by simp⟩
    · refine ⟨pre, x, post ++ [a], by simp, hC, ?_⟩
      intro b hb
      rcases List.mem_append.1 hb with h | h
      · exact hR b h
      · simp only [List.mem_singleton] at h
        subst h
        exact hRa

theorem presentTrack_iff_activeWitness (i : String) (acts : List NiceModalAction) :
    presentTrack i acts false = true ↔ activeWitness i acts := by
  induction acts using List.reverseRecOn with
  | nil =>
    constructor
    · intro h
      simp [presentTrack] at h
    · rintro ⟨pre, a, post, h, -, -⟩
      exact absurd h (by simp)
  | append_singleton as a ih =>
    rw [activeWitness_snoc]
    simp only [presentTrack, List.foldl_append, List.foldl_cons, List.foldl_nil]
    cases hC : entryWriter i a with
    | true => simp [hC]
    | false =>
      cases hRa : isRemoveFor i a with
      | true => simp [hC, hRa]
      | false =>
        have ih2 : List.foldl
            (fun acc a => if entryWriter i a then true else if isRemoveFor i a then false else acc)
            false as = true ↔ activeWitness i as := ih
        simp only [hC, hRa]
        simp
        simpa using ih2

/-- C3 (amended): starting from the empty initial state, an id is present
in the store after a dispatched action sequence exactly when the sequence
contains an entry-writing action for that id (a show or a set-flags
action) with no remove action for that id after it; absence means no such
action occurred or a remove came later. -/
theorem store_presence_iff (m : String → Bool) (acts : List NiceModalAction) (i : String) :
    (getEntry (applyActions m [] acts) i).isSome = true ↔
      ∃ pre a post, acts = pre ++ a :: post ∧ entryWriter i a = true ∧
        ∀ b ∈ post, isRemoveFor i b = false := by
  rw [presentTrack_applyActions m acts [] i]
  simpa [getEntry, activeWitness] using presentTrack_iff_activeWitness i acts

/-- Witness for C3 (amended) at a concrete action sequence. -/
theorem store_presence_iff_witness :
    (getEntry (applyActions (fun _ => false) []
        [NiceModalAction.showModal "m1" none]) "m1").isSome = true :=
  (store_presence_iff (fun _ => false) [NiceModalAction.showModal "m1" none] "m1").mpr
    ⟨[], NiceModalAction.showModal "m1" none, [], rfl, by decide, by simp⟩

/-- C3 counterexample: dispatching one set-flags action from the empty
initial state creates a store entry for the id although the sequence
contains no show action at all, so presence of an id does not imply a
show was dispatched, and actions other than show can create entries. -/
theorem setFlags_creates_entry_without_show :
    (getEntry (applyActions (fun _ => false) []
        [NiceModalAction.setModalFlags "m1" {}]) "m1").isSome = true ∧
    ([NiceModalAction.setModalFlags "m1" {}].all fun a => !isShowFor "m1" a) = true := by
  decide
